import Mathlib

/-!
Verification of the sharded entity repository layer (`ai_db_orm`).

We give a shallow embedding of `models.py` and `repos.py`:

* identifiers (`uuid.UUID`) are modelled as naturals; each call that draws a
  fresh identifier via `uuid.uuid4()` takes the drawn value as an explicit
  argument;
* `datetime.now()` timestamps are modelled by a per-shard logical clock that
  advances on every committed insert, so rows committed later carry strictly
  larger `created_at` values;
* each repository owns one shard, modelled as a structure holding the lists of
  rows of the tables of that entity family (rows are appended in commit order,
  as the engine does for inserts);
* SQLModel queries are modelled by `List.filter` (`where`), `List.head?`
  (`.first()`), identity on the filtered list (`.all()`), `List.mergeSort`
  with a descending comparator (`.order_by(col.desc())`) and `List.take`
  (`.limit(n)`);
* fallible operations return `Except RepoError` values; `RepoError` also has
  constructors for the typed errors named by the error-taxonomy of the
  documentation, so that statements can compare what the code raises with what
  the taxonomy announces.
-/

namespace AiDbOrm

/-- Identifiers (`uuid.UUID`), modelled as naturals. -/
abbrev UUID := Nat

/-- Timestamps (`datetime`), modelled as logical clock values. -/
abbrev DateTime := Nat

/-- The `dict` payload of a chat message (`arguments`), an opaque mapping. -/
abbrev Arguments := List (String × String)

/-- Errors observable from repository calls.
`attributeErrorNone` is the Python `AttributeError` raised when an attribute is
assigned on `None` (a `.first()` miss dereferenced); `indexError` is the Python
`IndexError` from indexing an empty result list; `persistenceError` models the
engine exception propagated out of a failed `session.commit()`;
`notFoundError` is the typed lookup error named by the documented error
taxonomy (no code path of `repos.py` constructs it). -/
inductive RepoError where
  | attributeErrorNone
  | indexError
  | persistenceError
  | notFoundError
deriving DecidableEq, Repr

/-- Outcome of the engine executing `session.commit()`: success, or one of the
documented failure classes (constraint violation, connectivity loss). -/
inductive CommitOutcome where
  | ok
  | constraintViolation
  | connectivityLoss
deriving DecidableEq, Repr

/-! ### Entity schema (`models.py`) -/

/-- Table base `BaseTable`: timestamps shared by every row. -/
structure BaseTable where
  updated_at : Option DateTime := none
  created_at : DateTime
deriving DecidableEq, Repr

/-- Row type `User`. -/
structure User extends BaseTable where
  user_id : UUID
  first_name : String
  last_name : String
  phone : String := "doesnt matter"
  email : String := "doesnt matter"
  password : String := "doesnt matter"
deriving DecidableEq, Repr

/-- Row type `Organization`. -/
structure Organization extends BaseTable where
  organization_id : UUID
  name : String
  timezone : String := "doesnt matter"
  status : String := "doesnt matter"
deriving DecidableEq, Repr

/-- Row type `OrganizationUser`. -/
structure OrganizationUser extends BaseTable where
  organization_id : UUID
  user_id : UUID
  status : String := "doesnt matter"
deriving DecidableEq, Repr

/-- Row type `Collection`. -/
structure Collection extends BaseTable where
  organization_id : UUID
  collection_id : UUID
  name : String
  color_code : String := "#000000"
  description : Option String := none
deriving DecidableEq, Repr

/-- Row type `CollectionResource`. -/
structure CollectionResource extends BaseTable where
  organization_id : UUID
  collection_id : UUID
  resource_id : UUID
deriving DecidableEq, Repr

/-- Enum `ResourceType` (`enums.py`); a `StrEnum` in the source. -/
inductive ResourceType where
  | file
  | meeting
  | website
deriving DecidableEq, Repr

/-- Row type `Resource`.  Its `status` is a `StrEnum` column; the update methods of
`ResourceRepo` assign plain strings to it, so it is modelled as `String` with
the enum values `"pending"`, `"failed"`, `"available"`. -/
structure Resource extends BaseTable where
  organization_id : UUID
  resource_id : UUID
  source_entity_type : ResourceType
  source_entity_id : UUID
  status : String := "pending"
  name : String := ""
  ai_summary : Option String := some ""
deriving DecidableEq, Repr

/-- Row type `File`. -/
structure File extends BaseTable where
  organization_id : UUID
  file_id : UUID
  resource_id : UUID
  name : String
  path : String
  mime_type : String
  user_id : UUID
  deleted : Option Bool := none
deriving DecidableEq, Repr

/-- Row type `Meeting`. -/
structure Meeting extends BaseTable where
  organization_id : UUID
  meeting_id : UUID
  resource_id : UUID
  provider_meeting_id : Option String := none
  provider_meeting_password : Option String := none
  provider_meeting_url : Option String := none
  provider : String := "doesnt matter"
  status : String := "pending"
  status_updated_at : DateTime
  transcriptions : Option String := none
  user_id : UUID
deriving DecidableEq, Repr

/-- Row type `Website`. -/
structure Website extends BaseTable where
  organization_id : UUID
  website_id : UUID
  resource_id : UUID
  name : String
  url : String
  parsed_urls : Option String := none
  user_id : Option UUID
deriving DecidableEq, Repr

/-- Row type `Chat`. -/
structure Chat extends BaseTable where
  organization_id : UUID
  chat_id : UUID
  owner_user_id : UUID
  type : String
  summary : Option String := none
  name : String
deriving DecidableEq, Repr

/-- Row type `ChatMessage`. -/
structure ChatMessage extends BaseTable where
  organization_id : UUID
  chat_id : UUID
  message_id : UUID
  user_id : Option UUID := none
  type : String
  content : String
  arguments : Arguments
  is_summarized : Bool := false
deriving DecidableEq, Repr

/-! ### The commit primitive (`BaseRepo._commit_object`)

The source opens a scoped session on the shard, adds the object, commits, and
refreshes the object from the stored row.  The engine (out of scope of the
repository, assumed to provide ACID per-shard transactions) either applies the
session's pending writes atomically, or fails, in which case the exception
propagates and the closing of the `with` block rolls the pending writes back.
The engine is modelled from that interface: a `DBSession` holds the pending
rows next to the committed table, and `sessionCommit` consumes a
`CommitOutcome` describing what the engine did. -/

/-- A scoped session on one table of a shard: the rows already committed and
the rows added but not yet committed. -/
structure DBSession (M : Type) where
  pending : List M
  committedTable : List M

/-- Operation `session.add(obj)`: record the object as a pending write. -/
def sessionAdd (s : DBSession M) (obj : M) : DBSession M :=
  { s with pending := s.pending ++ [obj] }

/-- Operation `session.commit()`: the engine applies all pending writes atomically, or
fails with a write error. -/
def sessionCommit (outcome : CommitOutcome) (s : DBSession M) :
    Except RepoError (DBSession M) :=
  match outcome with
  | .ok => .ok { pending := [], committedTable := s.committedTable ++ s.pending }
  | .constraintViolation => .error .persistenceError
  | .connectivityLoss => .error .persistenceError

/-- Method `BaseRepo._commit_object(obj)`: add, commit, refresh, return.  On success
the refreshed object is the row just persisted (the last row of the table); on
failure the closing of the `with` block discards the pending write, the table
is unchanged, and the error propagates. -/
def commit_object (outcome : CommitOutcome) (table : List M) (obj : M) :
    Except RepoError M × List M :=
  let sess := sessionAdd { pending := [], committedTable := table } obj
  match sessionCommit outcome sess with
  | .ok sess1 => (.ok ((sess1.committedTable.getLast?).getD obj), sess1.committedTable)
  | .error e => (.error e, table)

/-- The success path of `_commit_object`, used by every `create_*` method. -/
def commitRow (table : List M) (obj : M) : List M :=
  (commit_object .ok table obj).2

/-! ### Shard states

One shard per entity family, holding the tables of that family in commit
order, plus the shard's logical clock that stamps `created_at`
(`default_factory=datetime.now`) on rows constructed for insertion. -/

/-- The users shard (`UserRepo`). -/
structure UsersShard where
  users : List User
  clock : DateTime
deriving DecidableEq, Repr

/-- The organizations shard (`OrganizationRepo`). -/
structure OrgShard where
  organizations : List Organization
  organization_users : List OrganizationUser
  clock : DateTime
deriving DecidableEq, Repr

/-- The collections shard (`CollectionRepo`). -/
structure CollectionShard where
  collections : List Collection
  collection_resources : List CollectionResource
  clock : DateTime
deriving DecidableEq, Repr

/-- The resources shard (`ResourceRepo`). -/
structure ResourceShard where
  resources : List Resource
  clock : DateTime
deriving DecidableEq, Repr

/-- The files shard (`FileRepo`). -/
structure FileShard where
  files : List File
  clock : DateTime
deriving DecidableEq, Repr

/-- The meetings shard (`MeetingRepo`); only the `meetings` table is touched
by the operations modelled here. -/
structure MeetingShard where
  meetings : List Meeting
  clock : DateTime
deriving DecidableEq, Repr

/-- The websites shard (`WebsiteRepo`). -/
structure WebsiteShard where
  websites : List Website
  clock : DateTime
deriving DecidableEq, Repr

/-- The chat shard (`ChatRepo`); only the `chats` and `chat_messages` tables
are touched by the operations modelled here. -/
structure ChatShard where
  chats : List Chat
  chat_messages : List ChatMessage
  clock : DateTime
deriving DecidableEq, Repr

/-! ### `UserRepo` and `OrganizationRepo` -/

/-- The sentinel predicate of `UserRepo.get_default_user`:
`User.first_name == "Default AI", User.last_name == "service user 2"`. -/
def isDefaultUser (u : User) : Bool :=
  u.first_name == "Default AI" && u.last_name == "service user 2"

/-- Method `UserRepo.get_default_user()`: query by the sentinel name; if no row
matches, construct and commit a sentinel user whose `user_id` is the fresh
`uuid4` draw `freshUser`. -/
def get_default_user (freshUser : UUID) (s : UsersShard) : User × UsersShard :=
  match (s.users.filter isDefaultUser).head? with
  | some user => (user, s)
  | none =>
    let user : User :=
      { user_id := freshUser, first_name := "Default AI", last_name := "service user 2",
        created_at := s.clock }
    (user, { s with users := commitRow s.users user, clock := s.clock + 1 })

/-- The sentinel predicate of `OrganizationRepo.get_default_organization`:
`Organization.name == "Default AI service org 2"`. -/
def isDefaultOrganization (o : Organization) : Bool :=
  o.name == "Default AI service org 2"

/-- The first phase of `OrganizationRepo.get_default_organization()`: query
the organization by its sentinel name; if no row matches, construct and commit
a sentinel organization whose `organization_id` is the fresh `uuid4` draw. -/
def defaultOrgStep (freshOrg : UUID) (os : OrgShard) : Organization × OrgShard :=
  match (os.organizations.filter isDefaultOrganization).head? with
  | some organization => (organization, os)
  | none =>
    let organization : Organization :=
      { organization_id := freshOrg, name := "Default AI service org 2",
        created_at := os.clock }
    (organization,
      { os with organizations := commitRow os.organizations organization,
                clock := os.clock + 1 })

/-- The last phase of `get_default_organization()`: query `OrganizationUser`
by the default user's `user_id` alone (`OrganizationUser.user_id ==
user.user_id`, with no condition on `organization_id`), and commit a
membership row linking the user to the resolved organization only when that
query returns no row. -/
def ensureMembership (user_id organization_id : UUID) (os : OrgShard) : OrgShard :=
  match (os.organization_users.filter (fun ou => ou.user_id == user_id)).head? with
  | some _ => os
  | none =>
    let organization_user : OrganizationUser :=
      { organization_id := organization_id, user_id := user_id,
        created_at := os.clock }
    { os with organization_users := commitRow os.organization_users organization_user,
              clock := os.clock + 1 }

/-- Method `OrganizationRepo.get_default_organization()`: resolve (or create) the
sentinel organization, resolve the default user through
`UserRepo().get_default_user()`, then ensure some membership row for that
user exists. -/
def get_default_organization (freshOrg freshUser : UUID) (os : OrgShard)
    (us : UsersShard) : Organization × OrgShard × UsersShard :=
  let orgStep := defaultOrgStep freshOrg os
  let userStep := get_default_user freshUser us
  (orgStep.1, ensureMembership userStep.1.user_id orgStep.1.organization_id orgStep.2,
    userStep.2)

/-! ### `CollectionRepo` -/

/-- Method `CollectionRepo.create_collection_resource(collection_id, organization_id,
resource_id)`: commit the association row; no existence check on the
referenced resource. -/
def create_collection_resource (collection_id organization_id resource_id : UUID)
    (s : CollectionShard) : CollectionResource × CollectionShard :=
  let collection_resource : CollectionResource :=
    { collection_id := collection_id, organization_id := organization_id,
      resource_id := resource_id, created_at := s.clock }
  (collection_resource,
    { s with collection_resources := commitRow s.collection_resources collection_resource,
             clock := s.clock + 1 })

/-- Method `CollectionRepo.get_collection_resources(collection_id)`: all association
rows of the collection. -/
def get_collection_resources (s : CollectionShard) (collection_id : UUID) :
    List CollectionResource :=
  s.collection_resources.filter (fun cr => cr.collection_id == collection_id)

/-! ### `ResourceRepo` -/

/-- Method `ResourceRepo.get_resource(resource_id)`: first row matching the id, or
the absent value when none matches. -/
def get_resource (s : ResourceShard) (resource_id : UUID) : Option Resource :=
  (s.resources.filter (fun r => r.resource_id == resource_id)).head?

/-- Method `ResourceRepo.create_resource(organization_id, source_entity_type,
source_entity_id)`: commit a resource whose `resource_id` is the fresh
`uuid4` draw and whose remaining columns take their schema defaults
(`status = "pending"`). -/
def create_resource (organization_id : UUID) (source_entity_type : ResourceType)
    (source_entity_id : UUID) (freshResource : UUID) (s : ResourceShard) :
    Resource × ResourceShard :=
  let resource : Resource :=
    { organization_id := organization_id, resource_id := freshResource,
      source_entity_type := source_entity_type, source_entity_id := source_entity_id,
      created_at := s.clock }
  (resource, { s with resources := commitRow s.resources resource, clock := s.clock + 1 })

/-- Rewrite the status of the first row carrying the given primary key (the
row `session.exec(...).first()` loaded and `session.commit()` rewrote). -/
def setFirstStatus : List Resource → UUID → String → List Resource
  | [], _, _ => []
  | r :: rs, resource_id, status =>
    if r.resource_id == resource_id then { r with status := status } :: rs
    else r :: setFirstStatus rs resource_id status

/-- Method `ResourceRepo.update_resource_status(resource_id, status)`: load the first
matching row, assign `resource.status = status`, and commit.  When no row
matches, `.first()` returns `None` and the attribute assignment raises the
untyped `AttributeError` on `None`; nothing has been written, so the shard is
returned unchanged next to the error. -/
def update_resource_status (resource_id : UUID) (status : String)
    (s : ResourceShard) : Except RepoError Resource × ResourceShard :=
  match (s.resources.filter (fun r => r.resource_id == resource_id)).head? with
  | none => (.error .attributeErrorNone, s)
  | some resource =>
    (.ok { resource with status := status },
      { s with resources := setFirstStatus s.resources resource_id status })

/-- Method `ResourceRepo.get_resources_by_collection_id(collection_id)`: fetch the
association rows from the collections shard, index the first
(`collection_resources[0]`, an `IndexError` when the collection has none),
and return every resource carrying that first row's `resource_id`. -/
def get_resources_by_collection_id (cs : CollectionShard) (rs : ResourceShard)
    (collection_id : UUID) : Except RepoError (List Resource) :=
  match get_collection_resources cs collection_id with
  | [] => .error .indexError
  | cr :: _ =>
    .ok (rs.resources.filter (fun r => r.resource_id == cr.resource_id))

/-! ### `FileRepo`, `MeetingRepo`, `WebsiteRepo` -/

/-- Method `FileRepo.get_file(file_id)`. -/
def get_file (s : FileShard) (file_id : UUID) : Option File :=
  (s.files.filter (fun f => f.file_id == file_id)).head?

/-- Method `FileRepo.create_file_for_resource(organization, resource, file_name,
mime_type, user)`: the committed file reuses `resource.source_entity_id` as
its own primary key and `resource.resource_id` as its back-reference. -/
def create_file_for_resource (organization : Organization) (resource : Resource)
    (file_name mime_type : String) (user : User) (s : FileShard) :
    File × FileShard :=
  let file : File :=
    { organization_id := organization.organization_id,
      resource_id := resource.resource_id,
      file_id := resource.source_entity_id,
      name := file_name,
      path := "files/" ++ toString resource.source_entity_id,
      mime_type := mime_type,
      user_id := user.user_id,
      created_at := s.clock }
  (file, { s with files := commitRow s.files file, clock := s.clock + 1 })

/-- Method `MeetingRepo.get_meeting(meeting_id)`. -/
def get_meeting (s : MeetingShard) (meeting_id : UUID) : Option Meeting :=
  (s.meetings.filter (fun m => m.meeting_id == meeting_id)).head?

/-- Method `MeetingRepo.create_meeting(organization, resource, user)`: the committed
meeting reuses `resource.source_entity_id` as its `meeting_id` and
`resource.resource_id` as its back-reference. -/
def create_meeting (organization : Organization) (resource : Resource)
    (user : User) (s : MeetingShard) : Meeting × MeetingShard :=
  let meeting : Meeting :=
    { organization_id := organization.organization_id,
      resource_id := resource.resource_id,
      user_id := user.user_id,
      meeting_id := resource.source_entity_id,
      created_at := s.clock,
      status_updated_at := s.clock }
  (meeting, { s with meetings := commitRow s.meetings meeting, clock := s.clock + 1 })

/-- Method `WebsiteRepo.get_website(website_id)`. -/
def get_website (s : WebsiteShard) (website_id : UUID) : Option Website :=
  (s.websites.filter (fun w => w.website_id == website_id)).head?

/-- Method `WebsiteRepo.create_website(organization, resource, user, url)`: the
committed website reuses `resource.source_entity_id` as its `website_id` and
`resource.resource_id` as its back-reference; its placeholder name embeds a
fresh `uuid4` draw. -/
def create_website (organization : Organization) (resource : Resource)
    (user : User) (url : String) (freshName : UUID) (s : WebsiteShard) :
    Website × WebsiteShard :=
  let website : Website :=
    { organization_id := organization.organization_id,
      resource_id := resource.resource_id,
      user_id := some user.user_id,
      name := "Website " ++ toString freshName,
      website_id := resource.source_entity_id,
      url := url,
      created_at := s.clock }
  (website, { s with websites := commitRow s.websites website, clock := s.clock + 1 })

/-! ### `ChatRepo` -/

/-- Method `ChatRepo.get_chat(chat_id, organization_id)`. -/
def get_chat (s : ChatShard) (chat_id organization_id : UUID) : Option Chat :=
  (s.chats.filter (fun c => c.chat_id == chat_id && c.organization_id == organization_id)).head?

/-- The caller-supplied arguments of one `create_chat_message` call:
`organization_id`, `type`, `content`, the optional `message_id`,
`owner_user_id` and `arguments`, and the `uuid4` value drawn when no
`message_id` is supplied. -/
structure MsgPayload where
  organization_id : UUID
  type : String
  content : String
  message_id : Option UUID := none
  owner_user_id : Option UUID := none
  arguments : Option Arguments := none
  freshMessage : UUID
deriving DecidableEq, Repr

/-- The row `create_chat_message` constructs at clock `t` for chat `c` from
payload `p`: `message_id = message_id or uuid.uuid4()`, `arguments` defaulted
to the empty mapping. -/
def mkMessage (t : DateTime) (c : UUID) (p : MsgPayload) : ChatMessage :=
  { organization_id := p.organization_id,
    chat_id := c,
    message_id := p.message_id.getD p.freshMessage,
    user_id := p.owner_user_id,
    type := p.type,
    content := p.content,
    arguments := p.arguments.getD [],
    created_at := t }

/-- Method `ChatRepo.create_chat_message(...)`: construct the row and commit it. -/
def create_chat_message (c : UUID) (p : MsgPayload) (s : ChatShard) :
    ChatMessage × ChatShard :=
  let chat_message := mkMessage s.clock c p
  (chat_message,
    { s with chat_messages := commitRow s.chat_messages chat_message,
             clock := s.clock + 1 })

/-- A sequence of `create_chat_message` calls on one chat, in order. -/
def appendMessages (c : UUID) (ps : List MsgPayload) (s : ChatShard) : ChatShard :=
  match ps with
  | [] => s
  | p :: ps => appendMessages c ps (create_chat_message c p s).2

/-- Method `ChatRepo.get_chat_messages(chat_id)`: filter the chat's messages, sort
them newest-first on `created_at` (`order_by(ChatMessage.created_at.desc())`),
keep the first 40 (`limit(40)`), and reverse back to oldest-first. -/
def get_chat_messages (s : ChatShard) (chat_id : UUID) : List ChatMessage :=
  let chat_messages :=
    ((s.chat_messages.filter (fun m => m.chat_id == chat_id)).mergeSort
      (fun a b => b.created_at ≤ a.created_at)).take 40
  chat_messages.reverse

/-- The rows a sequence of `create_chat_message` calls constructs for chat `c`
starting at clock `t`: the i-th message carries `created_at = t + i`. -/
def mkMessages (t : DateTime) (c : UUID) (ps : List MsgPayload) : List ChatMessage :=
  match ps with
  | [] => []
  | p :: ps => mkMessage t c p :: mkMessages (t + 1) c ps

/-! ### Concrete states used to instantiate the theorems -/

/-- An empty users shard. -/
def usersShard0 : UsersShard := { users := [], clock := 0 }

/-- An empty organizations shard. -/
def orgShard0 : OrgShard := { organizations := [], organization_users := [], clock := 0 }

/-- A users shard already holding the sentinel default user, with `user_id = 7`. -/
def usersShardA : UsersShard :=
  { users := [{ user_id := 7, first_name := "Default AI",
                last_name := "service user 2", created_at := 0 }],
    clock := 1 }

/-- An organizations shard with no sentinel organization, in which user 7
already has a membership row in the unrelated organization 99. -/
def orgShardA : OrgShard :=
  { organizations := [],
    organization_users := [{ organization_id := 99, user_id := 7, created_at := 0 }],
    clock := 1 }

/-! ### More concrete states -/

/-- An empty resources shard. -/
def resourceShard0 : ResourceShard := { resources := [], clock := 0 }

/-- An empty files shard. -/
def fileShard0 : FileShard := { files := [], clock := 0 }

/-- An empty meetings shard. -/
def meetingShard0 : MeetingShard := { meetings := [], clock := 0 }

/-- An empty websites shard. -/
def websiteShard0 : WebsiteShard := { websites := [], clock := 0 }

/-- An empty chat shard. -/
def chatShard0 : ChatShard := { chats := [], chat_messages := [], clock := 0 }

/-- An empty collections shard. -/
def collectionShard0 : CollectionShard :=
  { collections := [], collection_resources := [], clock := 0 }

/-- A concrete resource with `resource_id = 4`. -/
def resourceB : Resource :=
  { organization_id := 1, resource_id := 4, source_entity_type := .file,
    source_entity_id := 9, created_at := 0 }

/-- A resources shard holding one resource with `resource_id = 4`. -/
def resourceShardB : ResourceShard := { resources := [resourceB], clock := 1 }

/-- The first association row of collection 2 in the concrete shard below. -/
def collResA : CollectionResource :=
  { organization_id := 1, collection_id := 2, resource_id := 4, created_at := 0 }

/-- A second association row of collection 2, referencing resource 6. -/
def collResB : CollectionResource :=
  { organization_id := 1, collection_id := 2, resource_id := 6, created_at := 0 }

/-- A collections shard in which collection 2 has two association rows. -/
def collectionShardC : CollectionShard :=
  { collections := [], collection_resources := [collResA, collResB], clock := 1 }

/-- A minimal message payload used for instantiation. -/
def payloadA (k : UUID) : MsgPayload :=
  { organization_id := 1, type := "user", content := "hello", freshMessage := k }

/-- Three concrete message payloads. -/
def payloadsA : List MsgPayload := [payloadA 10, payloadA 11, payloadA 12]

theorem commit_object_ok (table : List M) (obj : M) :
    commit_object .ok table obj = (.ok obj, table ++ [obj]) := by
  simp [commit_object, sessionAdd, sessionCommit, List.getLast?_concat]

theorem commitRow_eq (table : List M) (obj : M) :
    commitRow table obj = table ++ [obj] := by
  simp [commitRow, commit_object_ok]

/-! ### Lemmas on the get-or-create singleton protocol -/

theorem get_default_user_found (f : UUID) (us : UsersShard) (u : User)
    (h : (us.users.filter isDefaultUser).head? = some u) :
    get_default_user f us = (u, us) := by
  simp [get_default_user, h]

theorem get_default_user_sentinel (f : UUID) (us : UsersShard) :
    ((get_default_user f us).2.users.filter isDefaultUser).head?
      = some (get_default_user f us).1 := by
  unfold get_default_user
  cases h : (us.users.filter isDefaultUser).head? with
  | some u => simp [h]
  | none =>
    have hnil : us.users.filter isDefaultUser = [] := List.head?_eq_none_iff.mp h
    simp [h, commitRow_eq, List.filter_append, hnil, isDefaultUser]

theorem get_default_user_twice (f g : UUID) (us : UsersShard) :
    get_default_user g (get_default_user f us).2
      = ((get_default_user f us).1, (get_default_user f us).2) :=
  get_default_user_found g _ _ (get_default_user_sentinel f us)

theorem defaultOrgStep_found (f : UUID) (os : OrgShard) (o : Organization)
    (h : (os.organizations.filter isDefaultOrganization).head? = some o) :
    defaultOrgStep f os = (o, os) := by
  simp [defaultOrgStep, h]

theorem defaultOrgStep_sentinel (f : UUID) (os : OrgShard) :
    ((defaultOrgStep f os).2.organizations.filter isDefaultOrganization).head?
      = some (defaultOrgStep f os).1 := by
  unfold defaultOrgStep
  cases h : (os.organizations.filter isDefaultOrganization).head? with
  | some o => simp [h]
  | none =>
    have hnil : os.organizations.filter isDefaultOrganization = [] :=
      List.head?_eq_none_iff.mp h
    simp [h, commitRow_eq, List.filter_append, hnil, isDefaultOrganization]

theorem defaultOrgStep_organization_users (f : UUID) (os : OrgShard) :
    (defaultOrgStep f os).2.organization_users = os.organization_users := by
  unfold defaultOrgStep
  cases h : (os.organizations.filter isDefaultOrganization).head? <;> simp [h]

theorem ensureMembership_organizations (uid oid : UUID) (os : OrgShard) :
    (ensureMembership uid oid os).organizations = os.organizations := by
  unfold ensureMembership
  cases h : (os.organization_users.filter (fun ou => ou.user_id == uid)).head? <;> simp [h]

theorem ensureMembership_member (uid oid : UUID) (os : OrgShard) :
    ∃ ou, ((ensureMembership uid oid os).organization_users.filter
      (fun ou => ou.user_id == uid)).head? = some ou := by
  unfold ensureMembership
  cases h : (os.organization_users.filter (fun ou => ou.user_id == uid)).head? with
  | some ou => exact ⟨ou, by simp [h]⟩
  | none =>
    have hnil : os.organization_users.filter (fun ou => ou.user_id == uid) = [] :=
      List.head?_eq_none_iff.mp h
    refine ⟨{ organization_id := oid, user_id := uid, created_at := os.clock }, ?_⟩
    simp [h, commitRow_eq, List.filter_append, hnil]

theorem ensureMembership_already (uid oid : UUID) (os : OrgShard) (ou : OrganizationUser)
    (h : (os.organization_users.filter (fun x => x.user_id == uid)).head? = some ou) :
    ensureMembership uid oid os = os := by
  simp [ensureMembership, h]

theorem get_default_organization_twice (f g f2 g2 : UUID) (os : OrgShard)
    (us : UsersShard) :
    get_default_organization f2 g2 (get_default_organization f g os us).2.1
        (get_default_organization f g os us).2.2
      = get_default_organization f g os us := by
  unfold get_default_organization
  have horg : defaultOrgStep f2
      (ensureMembership (get_default_user g us).1.user_id
        (defaultOrgStep f os).1.organization_id (defaultOrgStep f os).2)
      = ((defaultOrgStep f os).1,
          ensureMembership (get_default_user g us).1.user_id
            (defaultOrgStep f os).1.organization_id (defaultOrgStep f os).2) := by
    apply defaultOrgStep_found
    rw [ensureMembership_organizations]
    exact defaultOrgStep_sentinel f os
  have huser := get_default_user_twice g g2 us
  obtain ⟨ou, hou⟩ := ensureMembership_member (get_default_user g us).1.user_id
    (defaultOrgStep f os).1.organization_id (defaultOrgStep f os).2
  simp only [horg, huser]
  rw [ensureMembership_already _ _ _ ou hou]

/-! ### Claims about the singleton protocol -/

/-- Claim C2: calling `get_default_user()` twice sequentially returns a user
with the same `user_id` both times and the second call adds no row to the
users table; likewise `get_default_organization()` called twice returns the
same `organization_id` and the second call adds no sentinel organization
row. -/
theorem default_singletons_idempotent (f1 f2 g1 g2 h1 h2 : UUID)
    (usA usB : UsersShard) (os : OrgShard) :
    ((get_default_user f2 (get_default_user f1 usA).2).1.user_id
        = (get_default_user f1 usA).1.user_id
      ∧ (get_default_user f2 (get_default_user f1 usA).2).2.users.length
        = (get_default_user f1 usA).2.users.length)
    ∧ ((get_default_organization g2 h2 (get_default_organization g1 h1 os usB).2.1
          (get_default_organization g1 h1 os usB).2.2).1.organization_id
        = (get_default_organization g1 h1 os usB).1.organization_id
      ∧ (get_default_organization g2 h2 (get_default_organization g1 h1 os usB).2.1
          (get_default_organization g1 h1 os usB).2.2).2.1.organizations.length
        = (get_default_organization g1 h1 os usB).2.1.organizations.length) := by
  simp [get_default_user_twice, get_default_organization_twice]

/-- Claim C4 counterexample: starting from a state in which the default user
(`user_id = 7`) already has a membership row in the unrelated organization 99
and no sentinel organization exists, `get_default_organization()` commits the
sentinel organization but finds the existing membership row by its
`user_id`-only query and therefore never links the user to the organization it
returns: no membership row carries the returned `organization_id`. -/
theorem membership_not_linked_counterexample :
    ¬ ∃ ou ∈ (get_default_organization 3 5 orgShardA usersShardA).2.1.organization_users,
        ou.user_id = (get_default_user 5 usersShardA).1.user_id
        ∧ ou.organization_id
          = (get_default_organization 3 5 orgShardA usersShardA).1.organization_id := by
  decide

/-- Claim C4 (amended): after `get_default_organization()` returns, a
membership row linking the default user to the returned organization exists
provided the prior state held no membership row for the default user at all;
when the default user already has a membership row — possibly in a different
organization — the `user_id`-only lookup finds it and no row linking the user
to the returned organization is created. -/
theorem membership_created_when_absent (f g : UUID) (os : OrgShard) (us : UsersShard)
    (h : ∀ ou ∈ os.organization_users,
        ou.user_id ≠ (get_default_user g us).1.user_id) :
    ∃ ou ∈ (get_default_organization f g os us).2.1.organization_users,
      ou.user_id = (get_default_user g us).1.user_id
      ∧ ou.organization_id = (get_default_organization f g os us).1.organization_id := by
  have hus : (defaultOrgStep f os).2.organization_users = os.organization_users :=
    defaultOrgStep_organization_users f os
  have hnil : (defaultOrgStep f os).2.organization_users.filter
      (fun ou => ou.user_id == (get_default_user g us).1.user_id) = [] := by
    rw [hus, List.filter_eq_nil_iff]
    intro a ha
    simpa using h a ha
  simp only [get_default_organization, ensureMembership]
  rw [hnil]
  simp only [commitRow_eq, List.head?_nil]
  exact ⟨{ organization_id := (defaultOrgStep f os).1.organization_id,
           user_id := (get_default_user g us).1.user_id,
           created_at := (defaultOrgStep f os).2.clock },
    List.mem_append_right _ (List.mem_singleton_self _), rfl, rfl⟩

/-- Witness for the amended claim C4 at a concrete state: both shards empty. -/
theorem membership_created_when_absent_witness :
    (∀ ou ∈ orgShard0.organization_users,
        ou.user_id ≠ (get_default_user 5 usersShard0).1.user_id)
    ∧ ∃ ou ∈ (get_default_organization 3 5 orgShard0 usersShard0).2.1.organization_users,
        ou.user_id = (get_default_user 5 usersShard0).1.user_id
        ∧ ou.organization_id
          = (get_default_organization 3 5 orgShard0 usersShard0).1.organization_id :=
  ⟨by simp [orgShard0], membership_created_when_absent 3 5 orgShard0 usersShard0
    (by simp [orgShard0])⟩

/-! ### The commit contract (claim C8) -/

/-- Claim C8: the commit primitive `_commit_object` returns, on success, the
entity exactly as persisted (the row appended to the shard table); on a write
failure (constraint violation, connectivity loss) the pending write is rolled
back, the table is unchanged, and a persistence error is raised. -/
theorem commit_object_contract {M : Type} (table : List M) (obj : M) :
    commit_object .ok table obj = (.ok obj, table ++ [obj])
    ∧ commit_object .constraintViolation table obj = (.error .persistenceError, table)
    ∧ commit_object .connectivityLoss table obj = (.error .persistenceError, table) :=
  ⟨commit_object_ok table obj, rfl, rfl⟩

/-! ### Concrete-entity binding (claim C5) -/

/-- Claim C5: the file committed by `create_file_for_resource` has
`file_id = resource.source_entity_id` and
`resource_id = resource.resource_id`; `create_meeting` and `create_website`
set `meeting_id` resp. `website_id` to `resource.source_entity_id` and their
`resource_id` back-reference to `resource.resource_id` in the same way. -/
theorem concrete_entity_binding (org : Organization) (r : Resource)
    (file_name mime_type url : String) (u : User) (fs : FileShard)
    (ms : MeetingShard) (ws : WebsiteShard) (freshName : UUID) :
    ((create_file_for_resource org r file_name mime_type u fs).1.file_id
        = r.source_entity_id
      ∧ (create_file_for_resource org r file_name mime_type u fs).1.resource_id
        = r.resource_id)
    ∧ ((create_meeting org r u ms).1.meeting_id = r.source_entity_id
      ∧ (create_meeting org r u ms).1.resource_id = r.resource_id)
    ∧ ((create_website org r u url freshName ws).1.website_id = r.source_entity_id
      ∧ (create_website org r u url freshName ws).1.resource_id = r.resource_id) :=
  ⟨⟨rfl, rfl⟩, ⟨rfl, rfl⟩, ⟨rfl, rfl⟩⟩

/-! ### Resource status update on a missing row (claim C3) -/

/-- Claim C3 counterexample: on the empty resources shard,
`update_resource_status(5, "available")` raises the untyped attribute error on
`None`, not the typed `NotFoundError` announced by the claim. -/
theorem update_status_missing_counterexample :
    (update_resource_status 5 "available" resourceShard0).1
      = Except.error RepoError.attributeErrorNone
    ∧ (update_resource_status 5 "available" resourceShard0).1
      ≠ Except.error RepoError.notFoundError := by
  have hval : (update_resource_status 5 "available" resourceShard0).1
      = Except.error RepoError.attributeErrorNone := by
    simp [update_resource_status, resourceShard0]
  refine ⟨hval, ?_⟩
  rw [hval]
  intro hc
  injection hc with h2
  exact RepoError.noConfusion h2

/-- Claim C3 (amended): when no resource carries the given id,
`update_resource_status` fails — `.first()` returns `None` and the status
assignment raises the untyped `AttributeError` on `None` rather than a typed
`NotFoundError` — and the shard state is unchanged. -/
theorem update_status_missing_raises (resource_id : UUID) (status : String)
    (s : ResourceShard)
    (h : ∀ r ∈ s.resources, r.resource_id ≠ resource_id) :
    update_resource_status resource_id status s
      = (Except.error RepoError.attributeErrorNone, s) := by
  have hnil : s.resources.filter (fun r => r.resource_id == resource_id) = [] := by
    rw [List.filter_eq_nil_iff]
    intro a ha
    simpa using h a ha
  simp [update_resource_status, hnil]

/-- Witness for the amended claim C3 at a concrete state. -/
theorem update_status_missing_raises_witness :
    (∀ r ∈ resourceShard0.resources, r.resource_id ≠ 5)
    ∧ update_resource_status 5 "available" resourceShard0
      = (Except.error RepoError.attributeErrorNone, resourceShard0) :=
  ⟨by simp [resourceShard0],
    update_status_missing_raises 5 "available" resourceShard0 (by simp [resourceShard0])⟩

/-! ### Resource creation and status transition (claim C6) -/

theorem filter_head_setFirstStatus (l : List Resource) (resource_id : UUID)
    (status : String) (r : Resource)
    (h : (l.filter (fun x => x.resource_id == resource_id)).head? = some r) :
    ((setFirstStatus l resource_id status).filter
       (fun x => x.resource_id == resource_id)).head?
      = some { r with status := status } := by
  induction l with
  | nil => simp at h
  | cons a l ih =>
    by_cases ha : (a.resource_id == resource_id) = true
    · have hr : a = r := by simpa [List.filter_cons, ha] using h
      subst hr
      simp [setFirstStatus, ha, List.filter_cons]
    · have h2 : (l.filter (fun x => x.resource_id == resource_id)).head? = some r := by
        simpa [List.filter_cons, ha] using h
      simp [setFirstStatus, ha, List.filter_cons, ih h2]

/-- Claim C6: a freshly created resource has status `"pending"`; and when a
resource with the given id exists, `update_resource_status(id, "available")`
succeeds and a subsequent `get_resource(id)` returns a resource with status
`"available"`. -/
theorem resource_status_lifecycle (organization_id : UUID) (t : ResourceType)
    (source_entity_id freshResource : UUID) (s s2 : ResourceShard)
    (resource_id : UUID)
    (h : ∃ r ∈ s2.resources, r.resource_id = resource_id) :
    (create_resource organization_id t source_entity_id freshResource s).1.status
      = "pending"
    ∧ ∃ upd, (update_resource_status resource_id "available" s2).1 = .ok upd
    ∧ ∃ res, get_resource (update_resource_status resource_id "available" s2).2
          resource_id = some res
        ∧ res.status = "available" := by
  constructor
  · rfl
  · obtain ⟨r0, hr0, hid⟩ := h
    have hne : s2.resources.filter (fun r => r.resource_id == resource_id) ≠ [] := by
      intro hn
      rw [List.filter_eq_nil_iff] at hn
      exact hn r0 hr0 (by simp [hid])
    cases hh : (s2.resources.filter (fun r => r.resource_id == resource_id)).head? with
    | none => exact absurd (List.head?_eq_none_iff.mp hh) hne
    | some r =>
      refine ⟨{ r with status := "available" }, ?_, ?_⟩
      · simp [update_resource_status, hh]
      · refine ⟨{ r with status := "available" }, ?_, rfl⟩
        simp only [update_resource_status, hh, get_resource]
        exact filter_head_setFirstStatus s2.resources resource_id "available" r hh

/-- Witness for claim C6 at a concrete state: a shard holding resource 4. -/
theorem resource_status_lifecycle_witness :
    (∃ r ∈ resourceShardB.resources, r.resource_id = 4)
    ∧ ((create_resource 1 ResourceType.file 9 4 resourceShard0).1.status = "pending"
      ∧ ∃ upd, (update_resource_status 4 "available" resourceShardB).1 = .ok upd
      ∧ ∃ res, get_resource (update_resource_status 4 "available" resourceShardB).2 4
            = some res
          ∧ res.status = "available") :=
  ⟨⟨resourceB, by simp [resourceShardB], rfl⟩,
    resource_status_lifecycle 1 ResourceType.file 9 4 resourceShard0 resourceShardB 4
      ⟨resourceB, by simp [resourceShardB], rfl⟩⟩

/-! ### Collection-to-resource resolution (claims C7 and C9) -/

/-- Claim C7: when a collection has at least one association row, only the
first fetched association row is resolved: every returned resource carries
that first row's `resource_id`, and for any later association row with a
different `resource_id`, no returned resource carries its id. -/
theorem resources_by_collection_first_only (cs : CollectionShard) (rs : ResourceShard)
    (collection_id : UUID) (cr : CollectionResource) (rest : List CollectionResource)
    (h : get_collection_resources cs collection_id = cr :: rest) :
    ∃ out, get_resources_by_collection_id cs rs collection_id = .ok out
      ∧ (∀ r ∈ out, r.resource_id = cr.resource_id)
      ∧ ∀ other ∈ rest, other.resource_id ≠ cr.resource_id →
          ∀ r ∈ out, r.resource_id ≠ other.resource_id := by
  refine ⟨rs.resources.filter (fun r => r.resource_id == cr.resource_id), ?_, ?_, ?_⟩
  · simp [get_resources_by_collection_id, h]
  · intro r hr
    simpa using (List.mem_filter.mp hr).2
  · intro other hother hne r hr
    have heq : r.resource_id = cr.resource_id := by
      simpa using (List.mem_filter.mp hr).2
    rw [heq]
    exact Ne.symm hne

/-- Claim C9: when a collection has no association rows, the call does not
return an empty sequence — indexing `collection_resources[0]` fails with an
index-out-of-range error instead. -/
theorem resources_by_collection_empty_fails (cs : CollectionShard) (rs : ResourceShard)
    (collection_id : UUID)
    (h : get_collection_resources cs collection_id = []) :
    get_resources_by_collection_id cs rs collection_id = .error .indexError
    ∧ ∀ out : List Resource,
        get_resources_by_collection_id cs rs collection_id ≠ .ok out := by
  have h1 : get_resources_by_collection_id cs rs collection_id = .error .indexError := by
    simp [get_resources_by_collection_id, h]
  refine ⟨h1, fun out hc => ?_⟩
  rw [h1] at hc
  cases hc

/-- Witness for claim C7 at a concrete state: collection 2 holds two
association rows, referencing resources 4 and 6. -/
theorem resources_by_collection_first_only_witness :
    get_collection_resources collectionShardC 2 = collResA :: [collResB]
    ∧ ∃ out, get_resources_by_collection_id collectionShardC resourceShardB 2 = .ok out
      ∧ (∀ r ∈ out, r.resource_id = collResA.resource_id)
      ∧ ∀ other ∈ [collResB], other.resource_id ≠ collResA.resource_id →
          ∀ r ∈ out, r.resource_id ≠ other.resource_id :=
  ⟨by decide,
    resources_by_collection_first_only collectionShardC resourceShardB 2 collResA
      [collResB] (by decide)⟩

/-- Witness for claim C9 at a concrete state: the empty collections shard. -/
theorem resources_by_collection_empty_fails_witness :
    get_collection_resources collectionShard0 2 = []
    ∧ get_resources_by_collection_id collectionShard0 resourceShardB 2
        = .error .indexError
    ∧ ∀ out : List Resource,
        get_resources_by_collection_id collectionShard0 resourceShardB 2 ≠ .ok out :=
  ⟨by decide,
    (resources_by_collection_empty_fails collectionShard0 resourceShardB 2 (by decide)).1,
    (resources_by_collection_empty_fails collectionShard0 resourceShardB 2 (by decide)).2⟩

/-! ### Single-entity lookups on missing ids (claim C10) -/

/-- Claim C10: each single-entity lookup — `get_resource`, `get_file`,
`get_meeting`, `get_website`, `get_chat` — returns the absent value rather
than raising when no row matches its identifier, despite the non-optional
return annotations of the source; the lookups read without writing. -/
theorem lookups_return_none (rs : ResourceShard) (fs : FileShard) (ms : MeetingShard)
    (ws : WebsiteShard) (chs : ChatShard) (id organization_id : UUID)
    (h1 : ∀ r ∈ rs.resources, r.resource_id ≠ id)
    (h2 : ∀ f ∈ fs.files, f.file_id ≠ id)
    (h3 : ∀ m ∈ ms.meetings, m.meeting_id ≠ id)
    (h4 : ∀ c ∈ ws.websites, c.website_id ≠ id)
    (h5 : ∀ c ∈ chs.chats, ¬(c.chat_id = id ∧ c.organization_id = organization_id)) :
    get_resource rs id = none ∧ get_file fs id = none ∧ get_meeting ms id = none
    ∧ get_website ws id = none ∧ get_chat chs id organization_id = none := by
  refine ⟨?_, ?_, ?_, ?_, ?_⟩
  · simp only [get_resource, List.head?_eq_none_iff, List.filter_eq_nil_iff]
    intro a ha
    simpa using h1 a ha
  · simp only [get_file, List.head?_eq_none_iff, List.filter_eq_nil_iff]
    intro a ha
    simpa using h2 a ha
  · simp only [get_meeting, List.head?_eq_none_iff, List.filter_eq_nil_iff]
    intro a ha
    simpa using h3 a ha
  · simp only [get_website, List.head?_eq_none_iff, List.filter_eq_nil_iff]
    intro a ha
    simpa using h4 a ha
  · simp only [get_chat, List.head?_eq_none_iff, List.filter_eq_nil_iff]
    intro a ha
    simpa using h5 a ha

/-- Witness for claim C10 at a concrete state: every shard empty, id 3. -/
theorem lookups_return_none_witness :
    get_resource resourceShard0 3 = none ∧ get_file fileShard0 3 = none
    ∧ get_meeting meetingShard0 3 = none ∧ get_website websiteShard0 3 = none
    ∧ get_chat chatShard0 3 1 = none :=
  lookups_return_none resourceShard0 fileShard0 meetingShard0 websiteShard0 chatShard0 3 1
    (by simp [resourceShard0]) (by simp [fileShard0]) (by simp [meetingShard0])
    (by simp [websiteShard0]) (by simp [chatShard0])

/-! ### The message log (claim C1) -/

theorem mkMessages_chat_id (t : DateTime) (c : UUID) (ps : List MsgPayload) :
    ∀ m ∈ mkMessages t c ps, m.chat_id = c := by
  induction ps generalizing t with
  | nil => simp [mkMessages]
  | cons p ps ih =>
    simp only [mkMessages, List.mem_cons]
    rintro m (rfl | hm)
    · rfl
    · exact ih (t + 1) m hm

theorem mkMessages_created_ge (t : DateTime) (c : UUID) (ps : List MsgPayload) :
    ∀ m ∈ mkMessages t c ps, t ≤ m.created_at := by
  induction ps generalizing t with
  | nil => simp [mkMessages]
  | cons p ps ih =>
    simp only [mkMessages, List.mem_cons]
    rintro m (rfl | hm)
    · exact Nat.le_refl _
    · exact Nat.le_trans (Nat.le_succ t) (ih (t + 1) m hm)

theorem mkMessages_pairwise (t : DateTime) (c : UUID) (ps : List MsgPayload) :
    (mkMessages t c ps).Pairwise (fun a b => a.created_at < b.created_at) := by
  induction ps generalizing t with
  | nil => exact List.Pairwise.nil
  | cons p ps ih =>
    rw [mkMessages]
    refine List.Pairwise.cons ?_ (ih (t + 1))
    intro m hm
    show t < m.created_at
    exact Nat.lt_of_lt_of_le (Nat.lt_succ_self t) (mkMessages_created_ge (t + 1) c ps m hm)

theorem mkMessages_length (t : DateTime) (c : UUID) (ps : List MsgPayload) :
    (mkMessages t c ps).length = ps.length := by
  induction ps generalizing t with
  | nil => rfl
  | cons p ps ih => simp [mkMessages, ih]

theorem mkMessages_filter (t : DateTime) (c : UUID) (ps : List MsgPayload) :
    (mkMessages t c ps).filter (fun m => m.chat_id == c) = mkMessages t c ps := by
  rw [List.filter_eq_self]
  intro a ha
  have hc := mkMessages_chat_id t c ps a ha
  simp [hc]

theorem appendMessages_eq (c : UUID) (ps : List MsgPayload) (s : ChatShard) :
    appendMessages c ps s
      = { chats := s.chats,
          chat_messages := s.chat_messages ++ mkMessages s.clock c ps,
          clock := s.clock + ps.length } := by
  induction ps generalizing s with
  | nil => simp [appendMessages, mkMessages]
  | cons p ps ih =>
    rw [appendMessages, ih]
    simp only [create_chat_message, commitRow_eq, mkMessages, List.length_cons,
      List.append_assoc, List.singleton_append]
    congr 1
    rw [Nat.add_assoc, Nat.add_comm 1 ps.length]

/-- A list of messages with strictly increasing creation times is returned in
reverse by a sort on descending `created_at`. -/
theorem mergeSort_desc_eq_reverse (l : List ChatMessage)
    (h : l.Pairwise (fun a b => a.created_at < b.created_at)) :
    l.mergeSort (fun a b => b.created_at ≤ a.created_at) = l.reverse := by
  have htrans : ∀ (a b c : ChatMessage),
      (decide (b.created_at ≤ a.created_at)) = true →
      (decide (c.created_at ≤ b.created_at)) = true →
      (decide (c.created_at ≤ a.created_at)) = true := by
    intro a b c hab hbc
    simp only [decide_eq_true_eq] at hab hbc ⊢
    exact Nat.le_trans hbc hab
  have htotal : ∀ (a b : ChatMessage),
      ((decide (b.created_at ≤ a.created_at)) || (decide (a.created_at ≤ b.created_at)))
        = true := by
    intro a b
    simp only [Bool.or_eq_true, decide_eq_true_eq]
    exact Nat.le_total b.created_at a.created_at
  have hsorted := List.sorted_mergeSort htrans htotal l
  have hperm : List.Perm
      (l.mergeSort (fun a b => decide (b.created_at ≤ a.created_at))) l.reverse :=
    (List.mergeSort_perm l _).trans (List.reverse_perm l).symm
  have hne : l.Pairwise (fun a b => a.created_at ≠ b.created_at) :=
    h.imp (fun hab => Nat.ne_of_lt hab)
  have hne2 : (l.mergeSort (fun a b => decide (b.created_at ≤ a.created_at))).Pairwise
      (fun a b => a.created_at ≠ b.created_at) :=
    (List.Perm.pairwise_iff (fun hxy => Ne.symm hxy) (List.mergeSort_perm l _)).mpr hne
  have hstrict : (l.mergeSort (fun a b => decide (b.created_at ≤ a.created_at))).Pairwise
      (fun a b => b.created_at < a.created_at) := by
    refine (hsorted.and hne2).imp ?_
    intro a b hab
    have hle : b.created_at ≤ a.created_at := by
      have := hab.1
      simpa using this
    exact Nat.lt_of_le_of_ne hle (Ne.symm hab.2)
  have hrev : l.reverse.Pairwise (fun a b => b.created_at < a.created_at) := by
    rw [List.pairwise_reverse]
    exact h
  haveI : IsAntisymm ChatMessage (fun a b => b.created_at < a.created_at) :=
    ⟨fun a b h1 h2 => absurd h2 (Nat.lt_asymm h1)⟩
  exact List.eq_of_perm_of_sorted hperm hstrict hrev

theorem reverse_take_reverse (l : List α) (n : Nat) :
    (l.reverse.take n).reverse = l.drop (l.length - n) := by
  rw [← List.rtake_eq_reverse_take_reverse]
  rfl

/-- Claim C1: appending `N` messages to a chat that has none, then reading
them back with `get_chat_messages`, yields exactly `min N 40` messages — the
`min N 40` most recently created ones, in ascending `created_at` order. -/
theorem chat_messages_append_cap (s : ChatShard) (c : UUID) (ps : List MsgPayload)
    (h : s.chat_messages.filter (fun m => m.chat_id == c) = []) :
    get_chat_messages (appendMessages c ps s) c
      = (mkMessages s.clock c ps).drop (ps.length - 40)
    ∧ (get_chat_messages (appendMessages c ps s) c).length = min ps.length 40 := by
  have hmain : get_chat_messages (appendMessages c ps s) c
      = (mkMessages s.clock c ps).drop ((mkMessages s.clock c ps).length - 40) := by
    unfold get_chat_messages
    rw [appendMessages_eq]
    simp only [List.filter_append, h, List.nil_append, mkMessages_filter]
    rw [mergeSort_desc_eq_reverse _ (mkMessages_pairwise s.clock c ps)]
    rw [reverse_take_reverse]
  constructor
  · rw [hmain, mkMessages_length]
  · rw [hmain, List.length_drop, mkMessages_length]
    omega

/-- Witness for claim C1 at a concrete state: the empty chat shard and three
appended messages. -/
theorem chat_messages_append_cap_witness :
    chatShard0.chat_messages.filter (fun m => m.chat_id == 7) = []
    ∧ (get_chat_messages (appendMessages 7 payloadsA chatShard0) 7
        = (mkMessages chatShard0.clock 7 payloadsA).drop (payloadsA.length - 40)
      ∧ (get_chat_messages (appendMessages 7 payloadsA chatShard0) 7).length
        = min payloadsA.length 40) :=
  ⟨rfl, chat_messages_append_cap chatShard0 7 payloadsA rfl⟩

end AiDbOrm
